import Mathlib

/-!
# Verification of the TRAVIX flight-search server (src/index.js)

A shallow embedding of the pure decision logic of `src/index.js`.  Upstream
HTTP calls are modelled as oracles: a value of type `Option r` (with `none`
standing for an axios error, i.e. the `catch` branch being taken), or a
function `String → Option r` when the handler issues one call per code.
JavaScript `undefined`/missing object fields are modelled with `Option`;
JS string falsiness (`undefined` or `""`) is made explicit via `truthy`/`jsOr`.
Timestamps (`Date` values obtained from `new Date(segment.departure.at)`) are
modelled as `Int` milliseconds since the epoch.
-/

namespace Travix

/-- JS truthiness of an optional string: `undefined` and `""` are falsy. -/
def truthy : Option String → Bool
  | none => false
  | some s => s ≠ ""

/-- JS `a || b` where `a` may be `undefined` and the result is a string. -/
def jsOr (a : Option String) (b : String) : String :=
  match a with
  | none => b
  | some s => if s = "" then b else s

/-- JS `a || b` where both operands may be `undefined`. -/
def jsOrOpt (a b : Option String) : Option String :=
  match a with
  | none => b
  | some s => if s = "" then b else some s

/-- JS `String.prototype.split(' ')` on the underlying character list:
splits on every single space, keeping empty fragments. -/
def splitOnSpace : List Char → List (List Char)
  | [] => [[]]
  | c :: cs =>
    match splitOnSpace cs with
    | [] => [[]]
    | w :: ws => if c = ' ' then [] :: w :: ws else (c :: w) :: ws

/-- JS `s.split(' ')`. -/
def jsSplit (s : String) : List String :=
  (splitOnSpace s.toList).map (fun l => String.mk l)

/-! ## Data model (upstream flight-offer structure) -/

/-- One endpoint (`segment.departure` / `segment.arrival`) of a segment.
`atTime` models the upstream `at` timestamp (`at` is a Lean keyword), as
milliseconds since the epoch.  `terminal` is optional upstream;
`cityName`/`airportName` are absent upstream and only attached by
enrichment. -/
structure Endpoint where
  iataCode : String
  atTime : Int
  terminal : Option String := none
  cityName : Option String := none
  airportName : Option String := none
deriving DecidableEq, Repr

/-- One non-stop leg of an itinerary.  `airlineName`/`flightDuration` are
absent upstream and only attached by enrichment. -/
structure Segment where
  id : String
  carrierCode : String
  departure : Endpoint
  arrival : Endpoint
  airlineName : Option String := none
  flightDuration : Option String := none
deriving DecidableEq, Repr

structure Itinerary where
  segments : List Segment
deriving DecidableEq, Repr

structure FlightOffer where
  id : String
  price : String
  itineraries : List Itinerary
deriving DecidableEq, Repr

/-! ## Upstream reference-data records -/

/-- The `address` substructure of a location record. -/
structure LocAddress where
  cityName : Option String
deriving DecidableEq, Repr

/-- One record of a `/reference-data/locations` response.  A missing
`address` means that accessing `location.address.cityName` throws. -/
structure LocRecord where
  iataCode : String
  name : Option String
  address : Option LocAddress
deriving DecidableEq, Repr

/-- One record of a `/reference-data/airlines` response. -/
structure AirlineRec where
  iataCode : String
  commonName : Option String
  officialName : Option String
deriving DecidableEq, Repr

/-- An entry of the list built by `getAirlinesFromFlightOffers`. -/
structure Airline where
  code : String
  name : Option String
deriving DecidableEq, Repr

/-- The `{ city, airport }` pair returned by `getCityAndAirportName`. -/
structure CityAirport where
  city : String
  airport : String
deriving DecidableEq, Repr

/-! ## Location resolver (src/index.js lines 213-244) -/

/-- `getRelatedAirportCodes` (lines 213-225): on upstream success map every
record to its `iataCode`; on an axios error fall back to `[cityCode]`. -/
def getRelatedAirportCodes (resp : Option (List LocRecord)) (cityCode : String) :
    List String :=
  match resp with
  | some records => records.map (·.iataCode)
  | none => [cityCode]

/-- `getCityAndAirportName` (lines 228-244): take the first record of the
response; accessing `location.address.cityName` throws when the response is
empty (`data[0]` is `undefined`) or when `address` is missing, landing in the
`catch` fallback `{ city: iataCode, airport: 'Unknown Airport' }`; otherwise
return `cityName || iataCode` and `name || 'Unknown Airport'`. -/
def getCityAndAirportName (resp : Option (List LocRecord)) (iataCode : String) :
    CityAirport :=
  match resp with
  | none => ⟨iataCode, "Unknown Airport"⟩
  | some records =>
    match records.head? with
    | none => ⟨iataCode, "Unknown Airport"⟩
    | some loc =>
      match loc.address with
      | none => ⟨iataCode, "Unknown Airport"⟩
      | some addr => ⟨jsOr addr.cityName iataCode, jsOr loc.name "Unknown Airport"⟩

/-! ## Airline resolver (src/index.js lines 83-109) -/

/-- `flight.itineraries[0].segments[0]`, when present.  (The JS code indexes
unconditionally; on upstream data both lists are non-empty.) -/
def firstSegment (f : FlightOffer) : Option Segment :=
  f.itineraries.head?.bind (fun it => it.segments.head?)

/-- `flight.itineraries[0].segments[0].carrierCode` for a well-formed offer
(the JS code would throw on a malformed one; theorems about malformed offers
are never needed, the default is junk). -/
def firstCarrierCode (f : FlightOffer) : String :=
  ((firstSegment f).map (·.carrierCode)).getD ""

/-- `[...new Set(codes)]`: deduplication keeping the order of first
appearance, exactly JS `Set` insertion order. -/
def dedupFirst (l : List String) : List String :=
  l.foldl (fun acc x => if x ∈ acc then acc else acc ++ [x]) []

/-- The deduplicated first-segment carrier codes of a flight list
(line 84). -/
def uniqueCarrierCodes (flights : List FlightOffer) : List String :=
  dedupFirst (flights.map firstCarrierCode)

/-- One iteration of the per-code loop (lines 87-106): an axios error
(`none`) is caught and the code skipped; on success `response.data.data[0]`
is read — an empty list makes `airlineData.iataCode` throw, which the same
`catch` swallows; otherwise `{ code, name: commonName || officialName }` is
produced. -/
def resolveAirline (lookup : String → Option (List AirlineRec)) (code : String) :
    Option Airline :=
  match lookup code with
  | none => none
  | some [] => none
  | some (r :: _) => some ⟨r.iataCode, jsOrOpt r.commonName r.officialName⟩

/-- The per-code loop over a list of codes, returning both the accumulated
airline list and the log of codes actually sent upstream (one call per
iteration, success or failure). -/
def airlineLoop (lookup : String → Option (List AirlineRec)) :
    List String → List Airline × List String
  | [] => ([], [])
  | code :: rest =>
    let tail := airlineLoop lookup rest
    match resolveAirline lookup code with
    | some a => (a :: tail.1, code :: tail.2)
    | none => (tail.1, code :: tail.2)

/-- `getAirlinesFromFlightOffers` (lines 83-109). -/
def getAirlinesFromFlightOffers (lookup : String → Option (List AirlineRec))
    (flights : List FlightOffer) : List Airline :=
  (airlineLoop lookup (uniqueCarrierCodes flights)).1

/-- The codes for which `getAirlinesFromFlightOffers` issues an upstream
call: one per iteration of its loop. -/
def airlineCallLog (lookup : String → Option (List AirlineRec))
    (flights : List FlightOffer) : List String :=
  (airlineLoop lookup (uniqueCarrierCodes flights)).2

/-! ## Flight-offer filter (src/index.js lines 134-138) -/

/-- The predicate of `filteredFlights`: first segment departs exactly at
`originCode` and arrives at one of `destinationCodes`. -/
def flightMatches (originCode : String) (destinationCodes : List String)
    (f : FlightOffer) : Bool :=
  match firstSegment f with
  | some s => s.departure.iataCode == originCode
      && destinationCodes.contains s.arrival.iataCode
  | none => false

/-- `filteredFlights` in the `/flight-offers` handler (lines 134-138). -/
def filterFlights (originCode : String) (destinationCodes : List String)
    (offers : List FlightOffer) : List FlightOffer :=
  offers.filter (flightMatches originCode destinationCodes)

/-! ## Enrichment in the `/flight-details` handler (src/index.js 287-311) -/

/-- Lines 304-309: `Math.floor((arrival - departure) / 60000)` minutes,
`Math.floor(duration / 60)` hours, and JS `duration % 60` (the truncated
remainder, which keeps the dividend's sign) rendered as `"<h>h <m>m"`. -/
def formatDuration (depAt arrAt : Int) : String :=
  let duration := Int.fdiv (arrAt - depAt) (1000 * 60)
  let hours := Int.fdiv duration 60
  let minutes := Int.tmod duration 60
  toString hours ++ "h " ++ toString minutes ++ "m"

/-- `airlines.find(a => a.code === segment.carrierCode)` (line 300). -/
def findAirline (airlines : List Airline) (code : String) : Option Airline :=
  airlines.find? (fun a => a.code == code)

/-- The body of the per-segment loop (lines 288-310): attach city and
airport names from `getCityAndAirportName`, default `terminal` to `"N/A"`
when falsy, attach `airlineName` (the matched airline's name, else the raw
carrier code) and the formatted `flightDuration`. -/
def enrichSegment (locLookup : String → Option (List LocRecord))
    (airlines : List Airline) (s : Segment) : Segment :=
  let dep := getCityAndAirportName (locLookup s.departure.iataCode) s.departure.iataCode
  let arr := getCityAndAirportName (locLookup s.arrival.iataCode) s.arrival.iataCode
  { s with
    departure := { s.departure with
      cityName := some dep.city
      airportName := some dep.airport
      terminal := some (jsOr s.departure.terminal "N/A") }
    arrival := { s.arrival with
      cityName := some arr.city
      airportName := some arr.airport
      terminal := some (jsOr s.arrival.terminal "N/A") }
    airlineName := match findAirline airlines s.carrierCode with
      | some a => a.name
      | none => some s.carrierCode
    flightDuration := some (formatDuration s.departure.atTime s.arrival.atTime) }

/-- The nested loop of lines 287-311 over one offer: every segment of every
itinerary is enriched in place, in order. -/
def enrichOffer (locLookup : String → Option (List LocRecord))
    (airlines : List Airline) (o : FlightOffer) : FlightOffer :=
  { o with itineraries :=
      o.itineraries.map (fun it => ⟨it.segments.map (enrichSegment locLookup airlines)⟩) }

/-! ## Segment reconstruction in `/booked-flight` (src/index.js 431-468) -/

/-- Lines 448-462: `{...segment, departure: {cityName, airportName,
iataCode, at}, arrival: {...}}` — the rebuilt endpoints keep only
`iataCode` and `at` of the originals (dropping `terminal`), and no
`airlineName` or `flightDuration` is attached. -/
def rebuildSegment (locLookup : String → Option (List LocRecord)) (s : Segment) :
    Segment :=
  let dep := getCityAndAirportName (locLookup s.departure.iataCode) s.departure.iataCode
  let arr := getCityAndAirportName (locLookup s.arrival.iataCode) s.arrival.iataCode
  { s with
    departure := { iataCode := s.departure.iataCode, atTime := s.departure.atTime
                   terminal := none
                   cityName := some dep.city, airportName := some dep.airport }
    arrival := { iataCode := s.arrival.iataCode, atTime := s.arrival.atTime
                 terminal := none
                 cityName := some arr.city, airportName := some arr.airport } }

/-- The triple loop of lines 434-468: rebuilt segments of every itinerary of
every offer, pushed in order into one flat list. -/
def bookedSegments (locLookup : String → Option (List LocRecord))
    (offers : List FlightOffer) : List Segment :=
  (offers.map (fun o =>
    (o.itineraries.map (fun it => it.segments.map (rebuildSegment locLookup))).flatten)).flatten

/-- The same flattening applied to the raw input segments, for comparison. -/
def allSegments (offers : List FlightOffer) : List Segment :=
  (offers.map (fun o => (o.itineraries.map (fun it => it.segments)).flatten)).flatten

/-! ## Booking (src/index.js 332-414) -/

/-- The body of a `/confirm-booking` request; every field may be absent. -/
structure BookingRequest where
  travelerName : Option String
  travelerEmail : Option String
  travelerPhone : Option String
  travelerDOB : Option String
  travelerGender : Option String
  offerId : Option String
  originCode : Option String
  destinationCode : Option String
  departureDate : Option String
deriving DecidableEq, Repr

/-- The required-field check of line 336 (JS falsiness: absent or empty). -/
def requiredFieldsPresent (r : BookingRequest) : Bool :=
  truthy r.travelerName && truthy r.travelerEmail && truthy r.travelerPhone &&
  truthy r.travelerDOB && truthy r.travelerGender && truthy r.offerId &&
  truthy r.originCode && truthy r.destinationCode && truthy r.departureDate

structure TravelerName where
  firstName : String
  lastName : String
deriving DecidableEq, Repr

structure TravelerPhone where
  deviceType : String
  countryCallingCode : String
  number : String
deriving DecidableEq, Repr

/-- The traveler record of `bookingPayload` (lines 372-384). -/
structure Traveler where
  id : String
  dateOfBirth : String
  firstName : String
  lastName : String
  gender : String
  emailAddress : String
  phone : TravelerPhone
deriving DecidableEq, Repr

/-- Lines 372-384: `firstName: travelerName.split(' ')[0]`,
`lastName: travelerName.split(' ')[1] || ''`, `gender: toUpperCase()`,
`phones: [{deviceType: 'MOBILE', countryCallingCode: '91', number}]`. -/
def mkTraveler (travelerName travelerEmail travelerPhone travelerDOB
    travelerGender : String) : Traveler :=
  { id := "1"
    dateOfBirth := travelerDOB
    firstName := (jsSplit travelerName).headD ""
    lastName := jsOr (jsSplit travelerName)[1]? ""
    gender := travelerGender.toUpper
    emailAddress := travelerEmail
    phone := { deviceType := "MOBILE", countryCallingCode := "91"
               number := travelerPhone } }

/-- `bookingResponse.data.data`, with its optional `id` (line 400 checks
`!bookingData || !bookingData.data || !bookingData.data.id`). -/
structure BookData where
  id : Option String
deriving DecidableEq, Repr

structure BookResp where
  data : Option BookData
deriving DecidableEq, Repr

/-- The observable outcome of the `/confirm-booking` handler. -/
inductive BookingResult where
  | validationError
  | upstreamError
  | offerNotFound
  | bookingFailed
  | confirmed (bookingId : String)
deriving DecidableEq, Repr

/-- The `/confirm-booking` handler (lines 332-414), with the two upstream
calls it can make (flight-offer search, booking creation) given as oracles.
The second component counts the upstream calls actually performed. -/
def confirmBooking (searchResp : Option (List FlightOffer))
    (bookResp : Option BookResp) (r : BookingRequest) : BookingResult × Nat :=
  if ¬ requiredFieldsPresent r then (.validationError, 0)
  else
    match searchResp with
    | none => (.upstreamError, 1)
    | some offers =>
      match offers.find? (fun o => o.id == r.offerId.getD "") with
      | none => (.offerNotFound, 1)
      | some _ =>
        match bookResp with
        | none => (.upstreamError, 2)
        | some resp =>
          match resp.data with
          | none => (.bookingFailed, 2)
          | some d =>
            match d.id with
            | none => (.bookingFailed, 2)
            | some bid => if bid = "" then (.bookingFailed, 2) else (.confirmed bid, 2)

/-! ## Sample data for concrete instantiations -/

/-- The upstream-authoritative part of a segment that enrichment must keep:
id, carrier code, and the two endpoints' codes and timestamps. -/
def segKey (s : Segment) : String × String × String × Int × String × Int :=
  (s.id, s.carrierCode, s.departure.iataCode, s.departure.atTime,
   s.arrival.iataCode, s.arrival.atTime)

/-- A sample one-segment offer from `dep` to `arr` with carrier `cc`. -/
def sampleOffer (oid cc dep arr : String) : FlightOffer :=
  { id := oid
    price := "100.00"
    itineraries := [⟨[{ id := oid ++ "-s1", carrierCode := cc
                        departure := { iataCode := dep, atTime := 0 }
                        arrival := { iataCode := arr, atTime := 9000000 } }]⟩] }

/-- A sample airline lookup oracle that succeeds for `AA` and `CC` and
fails for every other code. -/
def sampleAirlineLookup : String → Option (List AirlineRec) := fun c =>
  if c = "AA" then some [⟨"AA", some "American Airlines", none⟩]
  else if c = "CC" then some [⟨"CC", none, some "Cathay"⟩] else none

/-- A sample batch of three offers on carriers `AA`, `BB` and `CC`. -/
def sampleThreeCarrierFlights : List FlightOffer :=
  [sampleOffer "1" "AA" "JFK" "LHR", sampleOffer "2" "BB" "JFK" "CDG",
   sampleOffer "3" "CC" "JFK" "NRT"]

/-- The first record `sampleAirlineLookup` returns for each succeeding
code. -/
def sampleAirlineRecs : String → AirlineRec := fun d =>
  if d = "AA" then ⟨"AA", some "American Airlines", none⟩
  else ⟨"CC", none, some "Cathay"⟩

/-- A sample segment with no terminal information upstream. -/
def segNoTerminal : Segment :=
  { id := "s1", carrierCode := "AA"
    departure := { iataCode := "JFK", atTime := 0 }
    arrival := { iataCode := "LHR", atTime := 9000000 } }

/-- A sample segment with a terminal present on both endpoints. -/
def segWithTerminal : Segment :=
  { id := "s2", carrierCode := "BA"
    departure := { iataCode := "JFK", atTime := 0, terminal := some "4" }
    arrival := { iataCode := "LHR", atTime := 9000000, terminal := some "5" } }

/-! ## Helper lemmas -/

theorem dedupFirst_aux_nodup (l : List String) :
    ∀ acc : List String, acc.Nodup →
      (List.foldl (fun acc x => if x ∈ acc then acc else acc ++ [x]) acc l).Nodup := by
  induction l with
  | nil => intro acc h; simpa using h
  | cons x xs ih =>
    intro acc h
    simp only [List.foldl_cons]
    by_cases hx : x ∈ acc
    · simpa [hx] using ih acc h
    · simp only [hx, if_false]
      exact ih (acc ++ [x]) (by simp [List.nodup_append, h, hx])

theorem dedupFirst_aux_mem (l : List String) :
    ∀ (acc : List String) (y : String),
      (y ∈ List.foldl (fun acc x => if x ∈ acc then acc else acc ++ [x]) acc l ↔
        y ∈ acc ∨ y ∈ l) := by
  induction l with
  | nil => intro acc y; simp
  | cons x xs ih =>
    intro acc y
    simp only [List.foldl_cons]
    by_cases hx : x ∈ acc
    · rw [if_pos hx, ih]
      constructor
      · rintro (h | h)
        · exact Or.inl h
        · exact Or.inr (List.mem_cons_of_mem _ h)
      · rintro (h | h)
        · exact Or.inl h
        · rcases List.mem_cons.mp h with rfl | h
          · exact Or.inl hx
          · exact Or.inr h
    · rw [if_neg hx, ih]
      simp only [List.mem_append, List.mem_singleton, List.mem_cons]
      tauto

theorem dedupFirst_aux_sublist (l : List String) :
    ∀ acc : List String,
      List.Sublist (List.foldl (fun acc x => if x ∈ acc then acc else acc ++ [x]) acc l) (acc ++ l) := by
  induction l with
  | nil => intro acc; simp
  | cons x xs ih =>
    intro acc
    simp only [List.foldl_cons]
    by_cases hx : x ∈ acc
    · rw [if_pos hx]
      exact (ih acc).trans (List.Sublist.append_left (List.sublist_cons_self x xs) acc)
    · rw [if_neg hx]
      have h := ih (acc ++ [x])
      rwa [List.append_assoc, List.singleton_append] at h

theorem dedupFirst_nodup (l : List String) : (dedupFirst l).Nodup :=
  dedupFirst_aux_nodup l [] List.nodup_nil

theorem dedupFirst_mem (l : List String) (y : String) :
    y ∈ dedupFirst l ↔ y ∈ l := by
  have h := dedupFirst_aux_mem l [] y
  simpa [dedupFirst] using h

theorem dedupFirst_sublist (l : List String) : List.Sublist (dedupFirst l) l := by
  have h := dedupFirst_aux_sublist l []
  simpa [dedupFirst] using h

theorem airlineLoop_snd (lookup : String → Option (List AirlineRec)) :
    ∀ codes : List String, (airlineLoop lookup codes).2 = codes := by
  intro codes
  induction codes with
  | nil => rfl
  | cons c rest ih =>
    simp only [airlineLoop]
    cases resolveAirline lookup c <;> simp [ih]

theorem airlineLoop_fst (lookup : String → Option (List AirlineRec)) :
    ∀ codes : List String,
      (airlineLoop lookup codes).1 = codes.filterMap (resolveAirline lookup) := by
  intro codes
  induction codes with
  | nil => rfl
  | cons c rest ih =>
    simp only [airlineLoop, List.filterMap_cons]
    cases resolveAirline lookup c <;> simp [ih]

theorem filterMap_resolveAirline_partial
    (lookup : String → Option (List AirlineRec)) (c : String)
    (recs : String → AirlineRec) (rest : String → List AirlineRec)
    (hfail : lookup c = none) :
    ∀ codes : List String,
      (∀ d ∈ codes, d ≠ c → lookup d = some (recs d :: rest d)) →
      codes.filterMap (resolveAirline lookup) =
        (codes.filter (fun d => d != c)).map
          (fun d => ⟨(recs d).iataCode, jsOrOpt (recs d).commonName (recs d).officialName⟩) := by
  intro codes
  induction codes with
  | nil => intro _; rfl
  | cons d ds ih =>
    intro hsucc
    have htail := ih (fun e he hne => hsucc e (List.mem_cons_of_mem _ he) hne)
    by_cases hd : d = c
    · subst hd
      have h1 : resolveAirline lookup d = none := by rw [resolveAirline, hfail]
      simp [List.filterMap_cons, h1, List.filter_cons, htail]
    · have h1 : resolveAirline lookup d =
          some ⟨(recs d).iataCode, jsOrOpt (recs d).commonName (recs d).officialName⟩ := by
        rw [resolveAirline, hsucc d (List.mem_cons_self d ds) hd]
      simp [List.filterMap_cons, h1, List.filter_cons, hd, htail]

theorem segKey_enrich (L : String → Option (List LocRecord)) (A : List Airline)
    (s : Segment) : segKey (enrichSegment L A s) = segKey s := rfl

theorem segKey_rebuild (L : String → Option (List LocRecord)) (s : Segment) :
    segKey (rebuildSegment L s) = segKey s := rfl

/-! ## Claim C2 — `getRelatedAirportCodes` -/

/-- C2 (counterexample): `getRelatedAirportCodes` CAN return an empty
sequence — when the upstream lookup succeeds but matches no airport, the
map over an empty record list is empty, refuting "it never returns an empty
sequence". -/
theorem c2_empty_on_empty_success : getRelatedAirportCodes (some []) "NYC" = [] := rfl

/-- C2 (amended): on upstream failure `getRelatedAirportCodes` returns
exactly `[inputCode]`; on upstream success it returns the ordered sequence
of every matching airport's `iataCode`, which is empty exactly when the
upstream match list is empty (so the result is non-empty unless the lookup
succeeds with zero matches). -/
theorem c2_related_airport_codes (code : String) :
    getRelatedAirportCodes none code = [code] ∧
    (∀ records : List LocRecord,
      getRelatedAirportCodes (some records) code = records.map (·.iataCode)) ∧
    (∀ records : List LocRecord, records ≠ [] →
      getRelatedAirportCodes (some records) code ≠ []) := by
  refine ⟨rfl, fun records => rfl, fun records h => ?_⟩
  simp [getRelatedAirportCodes, h]

/-- C2 witness: the amended theorem at concrete inputs. -/
theorem c2_related_airport_codes_witness :
    getRelatedAirportCodes none "NYC" = ["NYC"] ∧
    getRelatedAirportCodes (some [⟨"JFK", none, none⟩]) "NYC" ≠ [] :=
  ⟨(c2_related_airport_codes "NYC").1,
   (c2_related_airport_codes "NYC").2.2 [⟨"JFK", none, none⟩] (by decide)⟩

/-! ## Claim C6 — `getCityAndAirportName` -/

/-- C6: `getCityAndAirportName` returns the first match's city and airport
name on a successful lookup with at least one match (whose `address`,
`cityName` and `name` are present and non-empty), and returns exactly
`{city: input code, airport: "Unknown Airport"}` whenever the lookup errors
or returns no match. -/
theorem c6_city_and_airport_name (code : String) :
    getCityAndAirportName none code = ⟨code, "Unknown Airport"⟩ ∧
    getCityAndAirportName (some []) code = ⟨code, "Unknown Airport"⟩ ∧
    (∀ (loc : LocRecord) (rest : List LocRecord) (addr : LocAddress) (c n : String),
      loc.address = some addr → addr.cityName = some c → c ≠ "" →
      loc.name = some n → n ≠ "" →
      getCityAndAirportName (some (loc :: rest)) code = ⟨c, n⟩) := by
  refine ⟨rfl, rfl, fun loc rest addr c n haddr hcity hc hname hn => ?_⟩
  simp [getCityAndAirportName, haddr, hcity, hname, jsOr, hc, hn]

/-- C6 witness: the theorem at concrete inputs. -/
theorem c6_city_and_airport_name_witness :
    getCityAndAirportName
      (some [⟨"JFK", some "John F Kennedy Intl", some ⟨some "New York"⟩⟩]) "JFK"
      = ⟨"New York", "John F Kennedy Intl"⟩ ∧
    getCityAndAirportName none "JFK" = ⟨"JFK", "Unknown Airport"⟩ :=
  ⟨(c6_city_and_airport_name "JFK").2.2
      ⟨"JFK", some "John F Kennedy Intl", some ⟨some "New York"⟩⟩ []
      ⟨some "New York"⟩ "New York" "John F Kennedy Intl"
      rfl rfl (by decide) rfl (by decide),
   (c6_city_and_airport_name "JFK").1⟩

/-! ## Claim C4 — flight-duration computation -/

/-- C4: for every segment, the attached `flightDuration` is the whole-minute
difference `d = ⌊(arrival - departure) / 60000⌋` rendered as
`"<⌊d/60⌋>h <d % 60>m"` (where `%` is the JS remainder, keeping the
dividend's sign); departure `2024-01-01T10:00` with arrival
`2024-01-01T12:30` (a difference of 9 000 000 ms) yields `"2h 30m"`, equal
timestamps yield `"0h 0m"`, and a negative duration is passed through with
no guard or correction (rendered with negative components). -/
theorem c4_flight_duration :
    (∀ (L : String → Option (List LocRecord)) (A : List Airline) (s : Segment),
      (enrichSegment L A s).flightDuration =
        some (formatDuration s.departure.atTime s.arrival.atTime)) ∧
    (∀ depAt arrAt : Int,
      formatDuration depAt arrAt =
        toString (Int.fdiv (Int.fdiv (arrAt - depAt) 60000) 60) ++ "h " ++
        toString (Int.tmod (Int.fdiv (arrAt - depAt) 60000) 60) ++ "m") ∧
    formatDuration 0 9000000 = "2h 30m" ∧
    (∀ t : Int, formatDuration t t = "0h 0m") ∧
    formatDuration 0 (-5400000) = "-2h -30m" := by
  refine ⟨fun L A s => rfl, fun depAt arrAt => rfl, by decide, fun t => ?_, by decide⟩
  simp [formatDuration, sub_self]
  decide

/-! ## Claim C5 — the `/flight-offers` filter -/

/-- C5: `filterFlights` retains exactly those offers whose first itinerary's
first segment departs at `originCode` (strict equality) and arrives at a
member of the destination's related-airport-code set; on the example batch
with first-segment departures JFK/LGA and arrivals LHR/CDG, origin `JFK`
and related codes `[LHR]`, only the JFK→LHR offer survives. -/
theorem c5_first_segment_filter :
    (∀ (origin : String) (destCodes : List String) (offers : List FlightOffer)
       (f : FlightOffer),
      f ∈ filterFlights origin destCodes offers ↔
        f ∈ offers ∧ ∃ s : Segment, firstSegment f = some s ∧
          s.departure.iataCode = origin ∧ s.arrival.iataCode ∈ destCodes) ∧
    filterFlights "JFK" ["LHR"]
      [sampleOffer "1" "AA" "JFK" "LHR", sampleOffer "2" "AA" "JFK" "CDG",
       sampleOffer "3" "AA" "LGA" "LHR", sampleOffer "4" "AA" "LGA" "CDG"]
      = [sampleOffer "1" "AA" "JFK" "LHR"] := by
  constructor
  · intro origin destCodes offers f
    rw [filterFlights, List.mem_filter]
    have hmatch : flightMatches origin destCodes f = true ↔
        ∃ s : Segment, firstSegment f = some s ∧
          s.departure.iataCode = origin ∧ s.arrival.iataCode ∈ destCodes := by
      rw [flightMatches]
      cases h : firstSegment f with
      | none => simp
      | some s => simp [List.elem_iff]
    rw [hmatch]
  · decide

/-- C5 witness: the membership characterization applied at the example. -/
theorem c5_first_segment_filter_witness :
    sampleOffer "1" "AA" "JFK" "LHR" ∈
      filterFlights "JFK" ["LHR"]
        [sampleOffer "1" "AA" "JFK" "LHR", sampleOffer "2" "AA" "JFK" "CDG"] :=
  (c5_first_segment_filter.1 "JFK" ["LHR"]
      [sampleOffer "1" "AA" "JFK" "LHR", sampleOffer "2" "AA" "JFK" "CDG"]
      (sampleOffer "1" "AA" "JFK" "LHR")).mpr
    ⟨by decide,
     { id := "1-s1", carrierCode := "AA"
       departure := { iataCode := "JFK", atTime := 0 }
       arrival := { iataCode := "LHR", atTime := 9000000 } },
     by decide, by decide, by decide⟩

/-! ## Claim C8 — `/confirm-booking` validation -/

/-- C8: whenever any required field of a `/confirm-booking` request is
missing, the handler answers with the validation failure (HTTP 400
`Missing required fields`) and performs zero upstream calls. -/
theorem c8_validation_before_upstream :
    ∀ (searchResp : Option (List FlightOffer)) (bookResp : Option BookResp)
      (r : BookingRequest),
      (r.travelerName = none ∨ r.travelerEmail = none ∨ r.travelerPhone = none ∨
       r.travelerDOB = none ∨ r.travelerGender = none ∨ r.offerId = none ∨
       r.originCode = none ∨ r.destinationCode = none ∨ r.departureDate = none) →
      confirmBooking searchResp bookResp r = (.validationError, 0) := by
  intro searchResp bookResp r h
  have hreq : requiredFieldsPresent r = false := by
    rcases h with h | h | h | h | h | h | h | h | h <;>
      simp [requiredFieldsPresent, truthy, h]
  simp [confirmBooking, hreq]

/-- C8 witness: a request missing only `travelerPhone` is rejected with zero
upstream calls, even though both upstream oracles are available. -/
theorem c8_validation_before_upstream_witness :
    confirmBooking (some [sampleOffer "1" "AA" "JFK" "LHR"]) (some ⟨some ⟨some "B1"⟩⟩)
      ⟨some "John Smith", some "j@x.com", none, some "1990-05-05", some "male",
       some "1", some "JFK", some "LHR", some "2024-06-01"⟩
      = (.validationError, 0) :=
  c8_validation_before_upstream _ _ _ (Or.inr (Or.inr (Or.inl rfl)))

/-! ## Claim C9 — the traveler record sent upstream -/

/-- C9 (counterexample): for `travelerName = "A B C"` the code sets
`lastName` to the second space-separated token `"B"`, not to the entire
remainder `"B C"` after the first space, refuting the claim as stated. -/
theorem c9_second_token_only :
    (mkTraveler "A B C" "a@b.c" "9999" "2000-01-01" "male").lastName = "B" ∧
    (mkTraveler "A B C" "a@b.c" "9999" "2000-01-01" "male").lastName ≠ "B C" := by
  decide

/-- C9 (amended): the traveler record has `firstName` equal to the first
space-separated token of `travelerName` and `lastName` equal to the second
token when one exists (any further tokens are discarded) and `""` when the
name has no space; `gender` is `travelerGender` upper-cased and the phone
carries the fixed country-calling-code prefix `91`. -/
theorem c9_traveler_payload :
    ∀ (name email phone dob gender a b : String) (rest : List String),
      (jsSplit name = a :: b :: rest →
        (mkTraveler name email phone dob gender).firstName = a ∧
        (mkTraveler name email phone dob gender).lastName = b) ∧
      (jsSplit name = [a] →
        (mkTraveler name email phone dob gender).firstName = a ∧
        (mkTraveler name email phone dob gender).lastName = "") ∧
      (mkTraveler name email phone dob gender).gender = gender.toUpper ∧
      (mkTraveler name email phone dob gender).phone.countryCallingCode = "91" ∧
      (mkTraveler name email phone dob gender).phone.number = phone ∧
      (mkTraveler name email phone dob gender).emailAddress = email ∧
      (mkTraveler name email phone dob gender).dateOfBirth = dob := by
  intro name email phone dob gender a b rest
  refine ⟨fun h => ⟨?_, ?_⟩, fun h => ⟨?_, ?_⟩, rfl, rfl, rfl, rfl, rfl⟩
  · simp [mkTraveler, h]
  · by_cases hb : b = "" <;> simp [mkTraveler, h, jsOr, hb]
  · simp [mkTraveler, h]
  · simp [mkTraveler, h, jsOr]

/-- C9 witness: the amended theorem at a concrete two-token name. -/
theorem c9_traveler_payload_witness :
    (mkTraveler "John Smith" "j@x.com" "9876543210" "1990-05-05" "male").firstName
      = "John" ∧
    (mkTraveler "John Smith" "j@x.com" "9876543210" "1990-05-05" "male").lastName
      = "Smith" :=
  (c9_traveler_payload "John Smith" "j@x.com" "9876543210" "1990-05-05" "male"
      "John" "Smith" []).1 (by decide)

/-! ## Claim C3 — single per-batch airline resolution -/

/-- C3: the airline batch resolver issues exactly one upstream call per
unique first-segment carrier code (its call log is the deduplicated code
list, which has no duplicates, keeps only codes appearing in the batch, and
is a first-appearance-order subsequence of the raw code list), and within
one enriched response any two segments sharing a `carrierCode` receive the
identical `airlineName` from the single pre-resolved airline list. -/
theorem c3_single_airline_resolution :
    ∀ (lookup : String → Option (List AirlineRec)) (flights : List FlightOffer),
      airlineCallLog lookup flights = uniqueCarrierCodes flights ∧
      (uniqueCarrierCodes flights).Nodup ∧
      (∀ c, c ∈ uniqueCarrierCodes flights ↔ c ∈ flights.map firstCarrierCode) ∧
      List.Sublist (uniqueCarrierCodes flights) (flights.map firstCarrierCode) ∧
      (∀ (L : String → Option (List LocRecord)) (A : List Airline) (s1 s2 : Segment),
        s1.carrierCode = s2.carrierCode →
        (enrichSegment L A s1).airlineName = (enrichSegment L A s2).airlineName) := by
  intro lookup flights
  refine ⟨airlineLoop_snd lookup _, dedupFirst_nodup _,
    fun c => dedupFirst_mem _ c, dedupFirst_sublist _, ?_⟩
  intro L A s1 s2 h
  simp only [enrichSegment, h]

/-- C3 witness: with two segments on carrier `AA` and a batch of two offers
both operated by `AA`, the call log is the single code `["AA"]` and both
enriched segments carry the same airline name. -/
theorem c3_single_airline_resolution_witness :
    airlineCallLog (fun _ => none)
      [sampleOffer "1" "AA" "JFK" "LHR", sampleOffer "2" "AA" "JFK" "CDG"]
      = ["AA"] ∧
    (enrichSegment (fun _ => none) [⟨"AA", some "American Airlines"⟩] segNoTerminal).airlineName
      = (enrichSegment (fun _ => none) [⟨"AA", some "American Airlines"⟩]
          { segNoTerminal with id := "other" }).airlineName := by
  have h := c3_single_airline_resolution (fun _ => none)
    [sampleOffer "1" "AA" "JFK" "LHR", sampleOffer "2" "AA" "JFK" "CDG"]
  refine ⟨?_, ?_⟩
  · rw [h.1]; decide
  · exact h.2.2.2.2 (fun _ => none) [⟨"AA", some "American Airlines"⟩]
      segNoTerminal { segNoTerminal with id := "other" } rfl

/-! ## Claim C7 — partial failure of airline resolution -/

/-- C7: for every batch and every set of unique carrier codes in which the
lookup of one code `c` fails while every other unique code succeeds (the
first record returned for a succeeding code `d` being `recs d`),
`getAirlinesFromFlightOffers` returns exactly the succeeding entries, in
order — the failing code is omitted and its failure does not abort the
resolution of any remaining code; and (provided no succeeding record
carries the failing code as its own `iataCode`) every segment carrying the
failing carrier code is enriched with the raw carrier code as its
`airlineName`. -/
theorem c7_partial_airline_failure :
    ∀ (lookup : String → Option (List AirlineRec)) (flights : List FlightOffer)
      (c : String) (recs : String → AirlineRec) (rest : String → List AirlineRec),
      lookup c = none →
      (∀ d ∈ uniqueCarrierCodes flights, d ≠ c → lookup d = some (recs d :: rest d)) →
      (getAirlinesFromFlightOffers lookup flights =
        ((uniqueCarrierCodes flights).filter (fun d => d != c)).map
          (fun d => ⟨(recs d).iataCode, jsOrOpt (recs d).commonName (recs d).officialName⟩)) ∧
      ((∀ d ∈ uniqueCarrierCodes flights, d ≠ c → (recs d).iataCode ≠ c) →
        ∀ (L : String → Option (List LocRecord)) (s : Segment),
          s.carrierCode = c →
          (enrichSegment L (getAirlinesFromFlightOffers lookup flights) s).airlineName
            = some s.carrierCode) := by
  intro lookup flights c recs rest hfail hsucc
  have hmain : getAirlinesFromFlightOffers lookup flights =
      ((uniqueCarrierCodes flights).filter (fun d => d != c)).map
        (fun d => ⟨(recs d).iataCode, jsOrOpt (recs d).commonName (recs d).officialName⟩) := by
    rw [getAirlinesFromFlightOffers, airlineLoop_fst]
    exact filterMap_resolveAirline_partial lookup c recs rest hfail _ hsucc
  refine ⟨hmain, fun hdist L s hs => ?_⟩
  have hnone : findAirline (getAirlinesFromFlightOffers lookup flights) c = none := by
    rw [findAirline, List.find?_eq_none]
    intro a ha
    rw [hmain] at ha
    rcases List.mem_map.mp ha with ⟨d, hdmem, rfl⟩
    rcases List.mem_filter.mp hdmem with ⟨hdcodes, hdne⟩
    have hne : (recs d).iataCode ≠ c :=
      hdist d hdcodes (by simpa using hdne)
    simpa using hne
  simp [enrichSegment, hs, hnone]

/-- C7 witness: three offers on carriers AA, BB, CC; the lookup of BB
fails; the result is exactly the AA and CC entries, and a BB segment is
enriched with the raw carrier code. -/
theorem c7_partial_airline_failure_witness :
    getAirlinesFromFlightOffers sampleAirlineLookup sampleThreeCarrierFlights
      = [⟨"AA", some "American Airlines"⟩, ⟨"CC", some "Cathay"⟩] ∧
    (enrichSegment (fun _ => none)
        (getAirlinesFromFlightOffers sampleAirlineLookup sampleThreeCarrierFlights)
        { segNoTerminal with carrierCode := "BB" }).airlineName = some "BB" := by
  have hcodes : uniqueCarrierCodes sampleThreeCarrierFlights = ["AA", "BB", "CC"] := by
    decide
  have hsucc : ∀ d ∈ uniqueCarrierCodes sampleThreeCarrierFlights, d ≠ "BB" →
      sampleAirlineLookup d = some (sampleAirlineRecs d :: []) := by
    intro d hd hne
    rw [hcodes] at hd
    simp only [List.mem_cons, List.not_mem_nil, or_false] at hd
    rcases hd with rfl | rfl | rfl
    · decide
    · exact absurd rfl hne
    · decide
  have hdist : ∀ d ∈ uniqueCarrierCodes sampleThreeCarrierFlights, d ≠ "BB" →
      (sampleAirlineRecs d).iataCode ≠ "BB" := by
    intro d hd hne
    rw [hcodes] at hd
    simp only [List.mem_cons, List.not_mem_nil, or_false] at hd
    rcases hd with rfl | rfl | rfl
    · decide
    · exact absurd rfl hne
    · decide
  have h := c7_partial_airline_failure sampleAirlineLookup sampleThreeCarrierFlights
    "BB" sampleAirlineRecs (fun _ => []) rfl hsucc
  refine ⟨?_, h.2 hdist (fun _ => none) { segNoTerminal with carrierCode := "BB" } rfl⟩
  rw [h.1, hcodes]
  decide

/-! ## Claim C10 — empty-but-successful airline lookup -/

/-- C10: a lookup that succeeds with an empty record list is handled
exactly like a failing lookup — `response.data.data[0]` is `undefined`, the
field access throws into the same `catch`, the code contributes no entry
(in particular no fallback entry with the raw code), and the overall result
equals the one obtained when that lookup fails outright. -/
theorem c10_empty_airline_response :
    ∀ (lookup1 lookup2 : String → Option (List AirlineRec))
      (flights : List FlightOffer) (c : String),
      lookup1 c = some [] → lookup2 c = none →
      (∀ d, d ≠ c → lookup1 d = lookup2 d) →
      resolveAirline lookup1 c = none ∧
      getAirlinesFromFlightOffers lookup1 flights =
        getAirlinesFromFlightOffers lookup2 flights := by
  intro lookup1 lookup2 flights c h1 h2 hagree
  have hres : ∀ d, resolveAirline lookup1 d = resolveAirline lookup2 d := by
    intro d
    by_cases hd : d = c
    · subst hd; rw [resolveAirline, resolveAirline, h1, h2]
    · rw [resolveAirline, resolveAirline, hagree d hd]
  refine ⟨by rw [resolveAirline, h1], ?_⟩
  rw [getAirlinesFromFlightOffers, getAirlinesFromFlightOffers,
    airlineLoop_fst, airlineLoop_fst]
  exact List.filterMap_congr (fun d _ => hres d)

/-- C10 witness: an empty successful response for `BB` yields the same
result as an outright failure for `BB`. -/
theorem c10_empty_airline_response_witness :
    getAirlinesFromFlightOffers
      (fun c => if c = "BB" then some [] else some [⟨c, some "X", none⟩])
      [sampleOffer "1" "AA" "JFK" "LHR", sampleOffer "2" "BB" "JFK" "CDG"]
      = getAirlinesFromFlightOffers
        (fun c => if c = "BB" then none else some [⟨c, some "X", none⟩])
        [sampleOffer "1" "AA" "JFK" "LHR", sampleOffer "2" "BB" "JFK" "CDG"] :=
  (c10_empty_airline_response
    (fun c => if c = "BB" then some [] else some [⟨c, some "X", none⟩])
    (fun c => if c = "BB" then none else some [⟨c, some "X", none⟩])
    [sampleOffer "1" "AA" "JFK" "LHR", sampleOffer "2" "BB" "JFK" "CDG"]
    "BB" (by decide) (by decide)
    (fun d hd => by simp [hd])).2

/-! ## Claim C1 — enrichment as a frame-preserving transform -/

/-- C1 (counterexample): enrichment does NOT leave the `terminal` field
unchanged — the `/flight-details` loop overwrites an absent terminal with
the sentinel `"N/A"`, and the `/booked-flight` reconstruction drops a
present terminal entirely, refuting the claim that every
upstream-authoritative field including terminals is left unchanged. -/
theorem c1_terminal_not_preserved :
    (enrichSegment (fun _ => none) [] segNoTerminal).departure.terminal
      ≠ segNoTerminal.departure.terminal ∧
    (rebuildSegment (fun _ => none) segWithTerminal).departure.terminal
      ≠ segWithTerminal.departure.terminal := by
  decide

/-- C1 (amended): both enrichment paths preserve segment count, order, and
the upstream-authoritative `id`, `carrierCode`, departure/arrival `iataCode`
and timestamps (`segKey`), and the offer's `id` and `price`.  The
`/flight-details` loop adds `cityName`/`airportName`/`flightDuration`, adds
`airlineName` (the matched airline's name, or the raw carrier code when
unmatched), keeps a present non-empty terminal and defaults an absent one
to `"N/A"`; the `/booked-flight` reconstruction rebuilds the endpoints with
only `iataCode`, `at`, `cityName` and `airportName` — dropping terminals —
and attaches no `airlineName` or `flightDuration`. -/
theorem c1_enrichment_frame :
    ∀ (L : String → Option (List LocRecord)) (A : List Airline) (o : FlightOffer)
      (offers : List FlightOffer) (s : Segment),
      ((enrichOffer L A o).id = o.id ∧ (enrichOffer L A o).price = o.price) ∧
      ((enrichOffer L A o).itineraries.map (fun it => it.segments.map segKey) =
        o.itineraries.map (fun it => it.segments.map segKey)) ∧
      ((enrichSegment L A s).departure.cityName.isSome = true ∧
       (enrichSegment L A s).departure.airportName.isSome = true ∧
       (enrichSegment L A s).arrival.cityName.isSome = true ∧
       (enrichSegment L A s).arrival.airportName.isSome = true ∧
       (enrichSegment L A s).flightDuration.isSome = true) ∧
      ((findAirline A s.carrierCode = none →
        (enrichSegment L A s).airlineName = some s.carrierCode) ∧
       (∀ a, findAirline A s.carrierCode = some a →
        (enrichSegment L A s).airlineName = a.name)) ∧
      (∀ t, s.departure.terminal = some t → t ≠ "" →
        (enrichSegment L A s).departure.terminal = some t) ∧
      (s.departure.terminal = none →
        (enrichSegment L A s).departure.terminal = some "N/A") ∧
      (∀ t, s.arrival.terminal = some t → t ≠ "" →
        (enrichSegment L A s).arrival.terminal = some t) ∧
      (s.arrival.terminal = none →
        (enrichSegment L A s).arrival.terminal = some "N/A") ∧
      ((bookedSegments L offers).map segKey = (allSegments offers).map segKey) ∧
      ((rebuildSegment L s).departure.terminal = none ∧
       (rebuildSegment L s).arrival.terminal = none ∧
       (rebuildSegment L s).departure.cityName.isSome = true ∧
       (rebuildSegment L s).departure.airportName.isSome = true ∧
       (rebuildSegment L s).arrival.cityName.isSome = true ∧
       (rebuildSegment L s).arrival.airportName.isSome = true ∧
       (rebuildSegment L s).airlineName = s.airlineName ∧
       (rebuildSegment L s).flightDuration = s.flightDuration) := by
  intro L A o offers s
  refine ⟨⟨rfl, rfl⟩, ?_, ⟨rfl, rfl, rfl, rfl, rfl⟩, ⟨?_, ?_⟩,
    ?_, ?_, ?_, ?_, ?_, ⟨rfl, rfl, rfl, rfl, rfl, rfl, rfl, rfl⟩⟩
  · simp [enrichOffer, List.map_map, Function.comp_def, segKey_enrich]
  · intro h; simp [enrichSegment, h]
  · intro a h; simp [enrichSegment, h]
  · intro t h hne; simp [enrichSegment, h, jsOr, hne]
  · intro h; simp [enrichSegment, h, jsOr]
  · intro t h hne; simp [enrichSegment, h, jsOr, hne]
  · intro h; simp [enrichSegment, h, jsOr]
  · simp [bookedSegments, allSegments, List.map_flatten, List.map_map,
      Function.comp_def, segKey_rebuild]

/-- C1 witness: a present terminal survives the `/flight-details`
enrichment unchanged. -/
theorem c1_enrichment_frame_witness :
    (enrichSegment (fun _ => none) [] segWithTerminal).departure.terminal = some "4" := by
  have h := c1_enrichment_frame (fun _ => none) []
    (sampleOffer "1" "AA" "JFK" "LHR") [] segWithTerminal
  exact h.2.2.2.2.1 "4" rfl (by decide)

end Travix
